import Mathlib

/-!
Verification of the libgit2 thread-scoped error-reporting channel
(`include/git2/errors.h`): the generic return-code enumeration, the
`git_error` record, and the error-slot protocol `giterr_set_str`,
`giterr_set_oom`, `giterr_last`, `giterr_clear`, `giterr_detach`.

The header declares the API and documents its behavior; the implementation
file is not part of the sources at hand, so the operations are modelled
from the specification and the header's doc comments, with the slot state
made explicit.  Allocation success is an explicit boolean parameter and
the platform's last-OS-error state is carried alongside the slot.
-/

/-- Generic return codes, from the `git_error_code` enum of
`include/git2/errors.h` (values as written in the source). -/
def GIT_OK : Int := 0

/-- Generic error. -/
def GIT_ERROR : Int := -1

/-- Requested object could not be found. -/
def GIT_ENOTFOUND : Int := -3

/-- Object exists preventing operation. -/
def GIT_EEXISTS : Int := -4

/-- More than one object matches. -/
def GIT_EAMBIGUOUS : Int := -5

/-- Output buffer too short to hold data. -/
def GIT_EBUFS : Int := -6

/-- Special error never generated by libgit2 code, reserved for callbacks. -/
def GIT_EUSER : Int := -7

/-- Operation not allowed on bare repository. -/
def GIT_EBAREREPO : Int := -8

/-- HEAD refers to branch with no commits. -/
def GIT_EUNBORNBRANCH : Int := -9

/-- Merge in progress prevented operation. -/
def GIT_EUNMERGED : Int := -10

/-- Reference was not fast-forwardable. -/
def GIT_ENONFASTFORWARD : Int := -11

/-- Name/ref spec was not in a valid format. -/
def GIT_EINVALIDSPEC : Int := -12

/-- Merge conflicts prevented operation. -/
def GIT_EMERGECONFLICT : Int := -13

/-- Lock file prevented operation. -/
def GIT_ELOCKED : Int := -14

/-- Reference value does not match expected. -/
def GIT_EMODIFIED : Int := -15

/-- Server certificate is invalid. -/
def GIT_ECERTIFICATE : Int := -16

/-- Internal only. -/
def GIT_PASSTHROUGH : Int := -30

/-- Signals end of iteration with iterator. -/
def GIT_ITEROVER : Int := -31

/-- All members of the `git_error_code` enum, in source order. -/
def git_error_codes : List Int :=
  [GIT_OK, GIT_ERROR, GIT_ENOTFOUND, GIT_EEXISTS, GIT_EAMBIGUOUS, GIT_EBUFS,
   GIT_EUSER, GIT_EBAREREPO, GIT_EUNBORNBRANCH, GIT_EUNMERGED,
   GIT_ENONFASTFORWARD, GIT_EINVALIDSPEC, GIT_EMERGECONFLICT, GIT_ELOCKED,
   GIT_EMODIFIED, GIT_ECERTIFICATE, GIT_PASSTHROUGH, GIT_ITEROVER]

/-- Error class `GITERR_NONE` from the `git_error_t` enum. -/
def GITERR_NONE : Int := 0

/-- Error class `GITERR_NOMEMORY` (second member of `git_error_t`). -/
def GITERR_NOMEMORY : Int := 1

/-- Error class `GITERR_OS` (third member of `git_error_t`). -/
def GITERR_OS : Int := 2

/-- Error class `GITERR_INVALID`. -/
def GITERR_INVALID : Int := 3

/-- Error class `GITERR_INDEX` (as counted in the `git_error_t` enum). -/
def GITERR_INDEX : Int := 11

/-- The `git_error` struct of `include/git2/errors.h`: a message string and
an integer classification tag `klass`.  A C `char *` message that is
present is modelled as a Lean `String`; the NULL / no-error case is the
`none` of the `Option git_error` held by the slot. -/
structure git_error where
  message : String
  klass : Int
deriving DecidableEq, Repr

/-- Modelled from the spec: the state visible to the error reporter, made
explicit.  `slot` is the thread's error slot (the per-thread `git_error`
pointer of the missing implementation file; `none` is the NULL / empty
slot).  `osError` is the platform's own last-recorded OS error
description (`none` models "no error"), which the reporter queries and
clears when the class is `GITERR_OS`. -/
structure ErrState where
  slot : Option git_error
  osError : Option String
deriving DecidableEq, Repr

/-- Modelled from the spec: the slot state at thread start — empty slot,
no pending platform OS error. -/
def initState : ErrState := { slot := none, osError := none }

/-- Modelled from the spec: the single statically pre-allocated, immutable
out-of-memory record stored by `giterr_set_oom` (missing implementation
file); its class is `GITERR_NOMEMORY`. -/
def g_git_oom_error : git_error :=
  { message := "Out of memory", klass := GITERR_NOMEMORY }

/-- Modelled from the spec: `giterr_set_oom` (missing implementation file)
stores a reference to the static out-of-memory record.  It takes no
allocation-success parameter because it never allocates, and it has no
failure outcome. -/
def giterr_set_oom (s : ErrState) : ErrState :=
  { s with slot := some g_git_oom_error }

/-- Modelled from the spec: `giterr_set_str` (missing implementation file).
`allocOk` models whether allocating the owned copy of the formatted
message succeeds.  When the class is `GITERR_OS`, the platform's
last-error description is appended to the message and the platform's
last-error state is cleared, synchronously inside the call.  On
allocation failure the reporter falls back to `giterr_set_oom`. -/
def giterr_set_str (allocOk : Bool) (error_class : Int) (string : String)
    (s : ErrState) : ErrState :=
  let message :=
    if error_class = GITERR_OS then
      match s.osError with
      | some desc => string ++ ": " ++ desc
      | none => string
    else string
  let s1 : ErrState :=
    { s with osError := if error_class = GITERR_OS then none else s.osError }
  if allocOk then
    { s1 with slot := some { message := message, klass := error_class } }
  else
    giterr_set_oom s1

/-- Modelled from the spec: `giterr_last` (missing implementation file)
returns the current record, or `none` for the NULL result when no error
has occurred, together with the (unchanged) state. -/
def giterr_last (s : ErrState) : Option git_error × ErrState :=
  (s.slot, s)

/-- Modelled from the spec: `giterr_clear` (missing implementation file)
releases and empties the slot. -/
def giterr_clear (s : ErrState) : ErrState :=
  { s with slot := none }

/-- Modelled from the spec: `giterr_detach` (missing implementation file).
Returns the status code, the resulting contents of the caller's `cpy`
struct, and the new state.  On a populated slot: status `0`, the record
moved into `cpy`, slot emptied.  On an empty slot: status `-1`, `cpy`
left unmodified, state unchanged. -/
def giterr_detach (cpy : git_error) (s : ErrState) :
    Int × git_error × ErrState :=
  match s.slot with
  | some e => (0, e, { s with slot := none })
  | none => (-1, cpy, s)

/-- A sequence of `giterr_set_str` calls, applied left to right. -/
def runSets (allocOk : Bool) (calls : List (Int × String)) (s : ErrState) :
    ErrState :=
  calls.foldl (fun st c => giterr_set_str allocOk c.1 c.2 st) s

/-- Whether the slot holds a record (the POPULATED state of the spec's
state machine). -/
def populated (s : ErrState) : Bool := s.slot.isSome

/-- One operation of the error-reporter protocol, for the state-machine
claim. -/
inductive ErrOp where
  | opSet (allocOk : Bool) (klass : Int) (text : String)
  | opSetOom
  | opClear
  | opDetach (cpy : git_error)
deriving DecidableEq, Repr

/-- Apply one protocol operation to the state. -/
def applyOp (s : ErrState) : ErrOp → ErrState
  | .opSet a k t => giterr_set_str a k t s
  | .opSetOom => giterr_set_oom s
  | .opClear => giterr_clear s
  | .opDetach c => (giterr_detach c s).2.2

/-- C1: every `set` fully replaces whatever record was stored: after any
sequence of `set(class_i, text_i)` calls (allocation succeeding, final
class not the OS class whose message is augmented), `read()` returns
exactly the record of the final call — no accumulation, no history. -/
theorem set_sequence_last_wins (calls : List (Int × String)) (k : Int)
    (t : String) (s : ErrState) (h : k ≠ GITERR_OS) :
    (giterr_last (runSets true (calls ++ [(k, t)]) s)).1 =
      some { message := t, klass := k } := by
  simp [runSets, List.foldl_append, giterr_last, giterr_set_str, h]

/-- Witness for `set_sequence_last_wins` at a concrete sequence. -/
theorem set_sequence_last_wins_witness :
    (giterr_last (runSets true
        [(GITERR_INVALID, "a"), (GITERR_INDEX, "bad index entry")]
        initState)).1 =
      some { message := "bad index entry", klass := GITERR_INDEX } :=
  set_sequence_last_wins [(GITERR_INVALID, "a")] GITERR_INDEX
    "bad index entry" initState (by decide)

/-- C2: `detach` succeeds exactly on a populated slot: it then returns 0,
moves the stored record into the caller's struct and empties the slot so
a following `read` returns empty; on an empty slot it returns -1, leaves
the caller's struct unmodified and the state unchanged. -/
theorem giterr_detach_spec :
    (∀ (s : ErrState) (e cpy : git_error), s.slot = some e →
      (giterr_detach cpy s).1 = 0 ∧ (giterr_detach cpy s).2.1 = e ∧
      (giterr_last (giterr_detach cpy s).2.2).1 = none) ∧
    (∀ (s : ErrState) (cpy : git_error), s.slot = none →
      (giterr_detach cpy s).1 = -1 ∧ (giterr_detach cpy s).2.1 = cpy ∧
      (giterr_detach cpy s).2.2 = s) := by
  constructor
  · intro s e cpy h
    simp [giterr_detach, h, giterr_last]
  · intro s cpy h
    simp [giterr_detach, h]

/-- Witness for `giterr_detach_spec` at concrete populated and empty
states. -/
theorem giterr_detach_spec_witness :
    (giterr_detach ⟨"y", 3⟩ ⟨some ⟨"m", 5⟩, none⟩).1 = 0 ∧
    (giterr_detach ⟨"y", 3⟩ ⟨none, none⟩).1 = -1 ∧
    (giterr_detach ⟨"y", 3⟩ ⟨none, none⟩).2.1 = ⟨"y", 3⟩ :=
  ⟨(giterr_detach_spec.1 ⟨some ⟨"m", 5⟩, none⟩ ⟨"m", 5⟩ ⟨"y", 3⟩ rfl).1,
   (giterr_detach_spec.2 ⟨none, none⟩ ⟨"y", 3⟩ rfl).1,
   (giterr_detach_spec.2 ⟨none, none⟩ ⟨"y", 3⟩ rfl).2.1⟩

/-- C3: `clear` leaves the slot empty for any prior state, so a following
`read` returns empty, and `clear` is idempotent. -/
theorem giterr_clear_then_read_empty (s : ErrState) :
    (giterr_last (giterr_clear s)).1 = none ∧
    giterr_clear (giterr_clear s) = giterr_clear s :=
  ⟨rfl, rfl⟩

/-- C4: `read` is non-destructive: it leaves the state exactly as it was,
returns the current slot contents, and repeating it yields the same
result. -/
theorem giterr_last_nondestructive (s : ErrState) :
    (giterr_last s).2 = s ∧
    (giterr_last s).1 = s.slot ∧
    (giterr_last (giterr_last s).2).1 = (giterr_last s).1 :=
  ⟨rfl, rfl, rfl⟩

/-- C5: `set` is infallible from the caller's point of view: for every
input the slot is populated afterwards, and on allocation failure the
static out-of-memory record is stored rather than a partial state. -/
theorem giterr_set_str_infallible (a : Bool) (k : Int) (t : String)
    (s : ErrState) :
    (giterr_set_str a k t s).slot.isSome = true ∧
    (a = false → (giterr_set_str a k t s).slot = some g_git_oom_error) := by
  cases a <;> simp [giterr_set_str, giterr_set_oom]

/-- Witness for `giterr_set_str_infallible` with failing allocation. -/
theorem giterr_set_str_infallible_witness :
    (giterr_set_str false 3 "x" initState).slot = some g_git_oom_error :=
  (giterr_set_str_infallible false 3 "x" initState).2 rfl

/-- C6: `set_out_of_memory` has no allocation parameter and no failure
outcome: on every state it stores the single static out-of-memory record
and leaves the slot populated with it, touching nothing else. -/
theorem giterr_set_oom_total (s : ErrState) :
    giterr_set_oom s = { s with slot := some g_git_oom_error } ∧
    populated (giterr_set_oom s) = true :=
  ⟨rfl, rfl⟩

/-- C7: `set` with the OS class appends the platform's last-error
description to the caller's text (the stored message has the caller text
as a prefix and the platform description as a suffix) and clears the
platform's last-error state synchronously inside the call. -/
theorem giterr_set_os_augments (s : ErrState) (desc t : String)
    (h : s.osError = some desc) :
    (giterr_set_str true GITERR_OS t s).slot =
      some { message := t ++ ": " ++ desc, klass := GITERR_OS } ∧
    t.data <+: (t ++ ": " ++ desc).data ∧
    desc.data <:+ (t ++ ": " ++ desc).data ∧
    (giterr_set_str true GITERR_OS t s).osError = none := by
  refine ⟨?_, ⟨(": " ++ desc).data, ?_⟩, ⟨(t ++ ": ").data, ?_⟩, ?_⟩
  · simp [giterr_set_str, h]
  · simp
  · simp
  · simp [giterr_set_str]

/-- Witness for `giterr_set_os_augments` at the spec's scenario. -/
theorem giterr_set_os_augments_witness :
    (giterr_set_str true GITERR_OS "open failed"
        { slot := none, osError := some "permission denied" }).slot =
      some { message := "open failed" ++ ": " ++ "permission denied",
             klass := GITERR_OS } ∧
    (giterr_set_str true GITERR_OS "open failed"
        { slot := none, osError := some "permission denied" }).osError =
      none :=
  ⟨(giterr_set_os_augments _ "permission denied" "open failed" rfl).1,
   (giterr_set_os_augments _ "permission denied" "open failed" rfl).2.2.2⟩

/-- C8: the slot obeys the two-state machine: initially EMPTY; `set` and
`set_out_of_memory` always reach POPULATED; `clear` always reaches EMPTY
and is a no-op on EMPTY; `detach` on POPULATED reaches EMPTY with status
0; `detach` on EMPTY stays put with status -1.  (At most one record per
state is structural: the slot is an optional single record.) -/
theorem errslot_state_machine :
    populated initState = false ∧
    (∀ (a : Bool) (k : Int) (t : String) (s : ErrState),
      populated (applyOp s (.opSet a k t)) = true) ∧
    (∀ s : ErrState, populated (applyOp s .opSetOom) = true) ∧
    (∀ s : ErrState, populated (applyOp s .opClear) = false) ∧
    (∀ (s : ErrState) (c : git_error), populated s = true →
      populated (applyOp s (.opDetach c)) = false ∧
      (giterr_detach c s).1 = 0) ∧
    (∀ (s : ErrState) (c : git_error), populated s = false →
      applyOp s (.opDetach c) = s ∧ (giterr_detach c s).1 = -1) ∧
    (∀ s : ErrState, populated s = false → applyOp s .opClear = s) := by
  refine ⟨rfl, ?_, fun s => rfl, fun s => rfl, ?_, ?_, ?_⟩
  · intro a k t s
    cases a <;> simp [applyOp, giterr_set_str, giterr_set_oom, populated]
  · intro s c h
    rcases Option.isSome_iff_exists.mp h with ⟨e, he⟩
    simp [applyOp, giterr_detach, he, populated]
  · intro s c h
    cases s with
    | mk slot os =>
      cases slot with
      | none => simp [applyOp, giterr_detach]
      | some e => simp [populated] at h
  · intro s h
    cases s with
    | mk slot os =>
      cases slot with
      | none => simp [applyOp, giterr_clear]
      | some e => simp [populated] at h

/-- Witness for `errslot_state_machine` at concrete states. -/
theorem errslot_state_machine_witness :
    populated (applyOp ⟨some ⟨"m", 4⟩, none⟩ (.opDetach ⟨"c", 0⟩)) = false ∧
    applyOp (⟨none, none⟩ : ErrState) (.opDetach ⟨"c", 0⟩) =
      (⟨none, none⟩ : ErrState) ∧
    applyOp (⟨none, none⟩ : ErrState) .opClear = (⟨none, none⟩ : ErrState) :=
  ⟨(errslot_state_machine.2.2.2.2.1 ⟨some ⟨"m", 4⟩, none⟩ ⟨"c", 0⟩ rfl).1,
   (errslot_state_machine.2.2.2.2.2.1 ⟨none, none⟩ ⟨"c", 0⟩ rfl).1,
   errslot_state_machine.2.2.2.2.2.2 ⟨none, none⟩ rfl⟩

/-- C9: in the return-code domain, `GIT_OK = 0` is the only non-negative
(success) code, all codes are pairwise distinct, and the domain contains
the sentinels `GIT_EUSER`, `GIT_PASSTHROUGH`, `GIT_ITEROVER` as distinct
negative values alongside not-found, exists, ambiguous and buffer-size
codes. -/
theorem git_error_code_domain :
    GIT_OK = 0 ∧
    git_error_codes.Nodup ∧
    (∀ c ∈ git_error_codes, c = GIT_OK ∨ c < 0) ∧
    GIT_EUSER ∈ git_error_codes ∧ GIT_PASSTHROUGH ∈ git_error_codes ∧
    GIT_ITEROVER ∈ git_error_codes ∧
    GIT_EUSER < 0 ∧ GIT_PASSTHROUGH < 0 ∧ GIT_ITEROVER < 0 ∧
    GIT_EUSER ≠ GIT_PASSTHROUGH ∧ GIT_EUSER ≠ GIT_ITEROVER ∧
    GIT_PASSTHROUGH ≠ GIT_ITEROVER ∧
    GIT_ENOTFOUND ∈ git_error_codes ∧ GIT_EEXISTS ∈ git_error_codes ∧
    GIT_EAMBIGUOUS ∈ git_error_codes ∧ GIT_EBUFS ∈ git_error_codes := by
  decide

/-- C10: `read` yields the NULL (empty) result exactly when no record is
stored — at thread start, after `clear`, and after a successful
`detach` — and a view of the stored record otherwise; `detach` returns
0 on success and -1 on an empty slot. -/
theorem giterr_null_and_status_codes :
    (giterr_last initState).1 = none ∧
    (∀ s : ErrState, (giterr_last (giterr_clear s)).1 = none) ∧
    (∀ (s : ErrState) (e cpy : git_error), s.slot = some e →
      (giterr_last (giterr_detach cpy s).2.2).1 = none ∧
      (giterr_detach cpy s).1 = 0) ∧
    (∀ (s : ErrState) (e : git_error), s.slot = some e →
      (giterr_last s).1 = some e) ∧
    (∀ (s : ErrState) (cpy : git_error), s.slot = none →
      (giterr_detach cpy s).1 = -1) := by
  refine ⟨rfl, fun s => rfl, ?_, ?_, ?_⟩
  · intro s e cpy h
    simp [giterr_detach, h, giterr_last]
  · intro s e h
    simp [giterr_last, h]
  · intro s cpy h
    simp [giterr_detach, h]

/-- Witness for `giterr_null_and_status_codes` at concrete states. -/
theorem giterr_null_and_status_codes_witness :
    (giterr_last (giterr_detach ⟨"z", 1⟩ ⟨some ⟨"m", 2⟩, none⟩).2.2).1 =
      none ∧
    (giterr_last (⟨some ⟨"m", 2⟩, none⟩ : ErrState)).1 = some ⟨"m", 2⟩ ∧
    (giterr_detach ⟨"z", 1⟩ (⟨none, none⟩ : ErrState)).1 = -1 :=
  ⟨(giterr_null_and_status_codes.2.2.1 ⟨some ⟨"m", 2⟩, none⟩ ⟨"m", 2⟩
      ⟨"z", 1⟩ rfl).1,
   giterr_null_and_status_codes.2.2.2.1 ⟨some ⟨"m", 2⟩, none⟩ ⟨"m", 2⟩ rfl,
   giterr_null_and_status_codes.2.2.2.2 ⟨none, none⟩ ⟨"z", 1⟩ rfl⟩

/-- C1 counterexample: with the OS class and a pending platform error,
`read` after `set(GITERR_OS, "open failed")` does not return exactly the
caller's record — the stored message embeds the platform diagnostic. -/
theorem set_os_sequence_counterexample :
    (giterr_last (runSets true [(GITERR_OS, "open failed")]
        { slot := none, osError := some "permission denied" })).1 ≠
      some { message := "open failed", klass := GITERR_OS } := by
  decide
